import Mathlib

/-!
Verification development for the RPC-over-broker protocol layer of the pika
transport driver (source: `oslo_messaging/_drivers/pika_driver/pika_message.py`).

The definitions below are a shallow embedding of that file.  Python dicts
decoded from JSON are modelled as association lists over a small value type;
Python machinery external to the repository (the JSON (de)serializer,
the import machinery, the connection pool and the broker) enters as explicit
oracle parameters.  Times (`time.time()`, expiration stamps) are modelled as
exact rationals.
-/

/-- Decoded JSON scalar values, sufficient for the bodies the claims touch. -/
inductive PyVal where
  | str (s : String)
  | int (n : Int)
  | bool (b : Bool)
  | pynone
deriving DecidableEq

/-- A Python dict decoded from a JSON object body: an association list from
string keys to values (keys of a Python dict are unique; where a proof needs
that it is an explicit hypothesis). -/
abbrev Dict := List (String × PyVal)

/-- Boolean prefix test on char lists, used to model Python `str.startswith`. -/
def charsLeadWith : List Char → List Char → Bool
  | [], _ => true
  | _ :: _, [] => false
  | a :: as, b :: bs => a == b && charsLeadWith as bs

/-- Model of Python `s.startswith(p)`. -/
def strStartsWith (s p : String) : Bool := charsLeadWith p.data s.data

/-- Model of Python slicing `s[n:]`. -/
def strDrop (s : String) (n : Nat) : String := ⟨s.data.drop n⟩

/-- Semantic error kinds raised by this layer.  Constructor names follow the
exception classes the source raises; the spec's taxonomy names map as:
`OperationTimeout` = `messagingTimeout`, `ConnectionFailure` =
`connectionError`, `ConnectionTimeout` = `timeoutConnectionError`,
`UnsupportedVersion` = `unsupportedDriverVersion`, `UnsupportedContentType` =
`contentTypeNotImplemented` (the source raises `NotImplementedError` there). -/
inductive OsloErr where
  | messagingTimeout
  | messageRejected
  | routingError
  | exchangeNotFound
  | connectionError
  | timeoutConnectionError
  | unsupportedDriverVersion
  | contentTypeNotImplemented
  | jsonParseError
deriving DecidableEq

/-- Major component of a version string (the part before the first dot). -/
def majorOf (s : String) : String := ⟨s.data.takeWhile (fun c => c != '.')⟩

/-- Modelled from the spec: `oslo_messaging._utils.version_is_compatible` is
code of this repository that is not under src/.  The spec states the policy:
the version header must be present and on the same major line as the driver's
own version; an absent header is incompatible. -/
def version_is_compatible (version : Option String) (driverVersion : String) : Bool :=
  match version with
  | none => false
  | some v => majorOf v == majorOf driverVersion

/-- Driver version constant `_VERSION` from the source. -/
def driverVERSION : String := "1.0"

/-- The slice of pika `BasicProperties` the decode path reads.  `getattr`
defaults in the source are modelled by `Option` plus `getD` at use sites.
`expiration` is carried in milliseconds (the source stores it as a numeric
string and converts with `float`). -/
structure PikaProperties where
  headers : Option (List (String × String))
  content_type : Option String
  content_encoding : Option String
  expiration : Option Int
deriving DecidableEq

/-- The slice of the pika delivery method the decode path reads. -/
structure DeliveryMethod where
  delivery_tag : Nat
deriving DecidableEq

/-- State of a `PikaIncomingMessage` after a successful `__init__`:
`message` is the remaining payload, `ctxt` the de-prefixed context, and
`sysFields` the attributes assigned by `setattr(self, key[1:], value)`. -/
structure ParsedMessage where
  version : Option String
  content_type : String
  content_encoding : String
  expiration_time : Option Rat
  no_ack : Bool
  delivery_tag : Nat
  message : Dict
  ctxt : Dict
  sysFields : Dict
deriving DecidableEq

/-- Key partition loop of `PikaIncomingMessage.__init__` (lines 124-131):
keys starting with `_context_` are popped into the context dict with the
9-char prefix stripped, other keys starting with `_` are popped and assigned
onto the object (modelled as the `sysFields` list), the rest stay in the
payload.  Returns (payload, context, system fields) preserving order. -/
def partitionBody : Dict → Dict × Dict × Dict
  | [] => ([], [], [])
  | (k, v) :: rest =>
    let t := partitionBody rest
    if strStartsWith k "_context_" then (t.1, (strDrop k 9, v) :: t.2.1, t.2.2)
    else if strStartsWith k "_" then (t.1, t.2.1, (strDrop k 1, v) :: t.2.2)
    else ((k, v) :: t.1, t.2.1, t.2.2)

/-- Embedding of `PikaIncomingMessage.__init__` (lines 88-133). `now` models
`time.time()`; `body` is the JSON-decoded object, `none` standing for a body
`jsonutils.loads` cannot parse (so reaching the parse step on such a body
raises, modelled as `jsonParseError`). -/
def pikaIncomingInit (now : Rat) (props : PikaProperties) (method : DeliveryMethod)
    (body : Option Dict) (no_ack : Bool) : Except OsloErr ParsedMessage :=
  let headers := props.headers.getD []
  let version := headers.lookup "version"
  if !(version_is_compatible version driverVERSION) then
    .error .unsupportedDriverVersion
  else
    let content_type := props.content_type.getD "application/json"
    let content_encoding := props.content_encoding.getD "utf-8"
    let expiration_time := props.expiration.map (fun e => now + (e : Rat) / 1000)
    if content_type ≠ "application/json" then
      .error .contentTypeNotImplemented
    else
      match body with
      | none => .error .jsonParseError
      | some kvs =>
        let t := partitionBody kvs
        .ok { version := version
              content_type := content_type
              content_encoding := content_encoding
              expiration_time := expiration_time
              no_ack := no_ack
              delivery_tag := method.delivery_tag
              message := t.1
              ctxt := t.2.1
              sysFields := t.2.2 }

/-- Version header value of a properties record, as the decode reads it. -/
def headersVersionOf (props : PikaProperties) : Option String :=
  (props.headers.getD []).lookup "version"

/-- Effective content type after the `getattr` default. -/
def effContentType (props : PikaProperties) : String :=
  props.content_type.getD "application/json"

/-- Payload of a decode result, used to state counterexamples. -/
def getPayload (r : Except OsloErr ParsedMessage) : Option Dict :=
  r.toOption.map (fun m => m.message)

/-- RabbitMQ channel operations a delivery handle can issue. -/
inductive ChannelOp where
  | basicAck (tag : Nat)
  | basicNack (tag : Nat) (requeue : Bool)
deriving DecidableEq

/-- States of the delivery handle of one received message. -/
inductive HandleState where
  | pending
  | acknowledged
  | requeued
deriving DecidableEq

/-- Embedding of `PikaIncomingMessage.acknowledge` (lines 135-141) as the list
of channel operations it issues. -/
def acknowledge (m : ParsedMessage) : List ChannelOp :=
  if !m.no_ack then [.basicAck m.delivery_tag] else []

/-- Embedding of `PikaIncomingMessage.requeue` (lines 143-150) as the list of
channel operations it issues. -/
def requeue (m : ParsedMessage) : List ChannelOp :=
  if !m.no_ack then [.basicNack m.delivery_tag true] else []

/-- Effect of a sequence of channel operations on a delivery handle. -/
def applyOps (s : HandleState) (ops : List ChannelOp) : HandleState :=
  ops.foldl (fun _ op => match op with
    | .basicAck _ => .acknowledged
    | .basicNack _ _ => .requeued) s

/-- Raw `_failure` record of a reply body, shape `{class, module, message, tb}`
(spec section 6).  In the source the four fields are read with
`self.failure.get(...)` (lines 293-296): `tb` defaults to `[]`, `message` to
the empty string, while `class` and `module` default to Python `None`,
modelled by `Option`. -/
structure FailureRecord where
  tb : List String
  message : String
  class_name : Option String
  module_name : Option String
deriving DecidableEq

/-- Python exceptions the reconstruction path can raise past its
`except ImportError` handler. -/
inductive PyExc where
  | importError
  | attributeError
  | typeError
deriving DecidableEq

/-- Failure object produced for the caller: either a dynamically built type
mixing `RemoteExceptionMixin` with the resolved class (carrying the four raw
fields plus the composed display string from `RemoteExceptionMixin.__init__`,
lines 59-64), or the generic fallback.  Modelled from the spec and the call
site: `oslo_messaging.RemoteError` is code of this repository not under src/;
the call at line 320 passes exactly `(class_name, message, trace)`, so the
generic object is modelled as carrying exactly those constructor arguments. -/
inductive FailureObj where
  | reconstructed (module clazz message : String) (trace : List String) (strMsg : String)
  | remoteError (clazz : Option String) (message : String) (trace : List String)
deriving DecidableEq

/-- Constructor of the dynamic exception type: `RemoteExceptionMixin.__init__`
stores the four fields and composes `message + "\n" + "\n".join(trace)`. -/
def mkRemoteException (module clazz message : String) (trace : List String) : FailureObj :=
  .reconstructed module clazz message trace (message ++ "\n" ++ String.intercalate "\n" trace)

/-- Embedding of the failure-reconstruction tail of
`RpcReplyPikaIncomingMessage.__init__` (lines 292-323).  `allowed` is the
engine's `allowed_remote_exmods`; `env` is an oracle for the Python import
machinery: `env m = none` means `import_module` raises `ImportError`,
`env m = some cs` means the module imports and exposes exactly the class
names `cs`.  `getattr` on an absent name raises `AttributeError` and
`getattr` with a `None` name raises `TypeError`; the source's `try` catches
only `ImportError`. -/
def processReplyFailure (allowed : List String) (env : String → Option (List String))
    (rec : FailureRecord) : Except PyExc FailureObj :=
  let resExc : Except PyExc (Option FailureObj) :=
    match rec.module_name with
    | some m =>
      if m ∈ allowed then
        match env m with
        | none => .ok none
        | some classes =>
          match rec.class_name with
          | none => .error .typeError
          | some c =>
            if c ∈ classes then .ok (some (mkRemoteException m c rec.message rec.tb))
            else .error .attributeError
      else .ok none
    | none => .ok none
  match resExc with
  | .error e => .error e
  | .ok r => .ok (r.getD (.remoteError rec.class_name rec.message rec.tb))

/-- Python dict assignment `d[k] = v`: overwrite in place if the key exists,
append otherwise. -/
def dictInsert (d : Dict) (k : String) (v : PyVal) : Dict :=
  if (d.lookup k).isSome then d.map (fun kv => if kv.1 == k then (k, v) else kv)
  else d ++ [(k, v)]

/-- Embedding of `PikaOutgoingMessage._prepare_message_to_send` (lines
362-381): copy the user message, add `_unique_id`, then add every context
entry re-keyed under the `_context_` prefix. -/
def prepare_message_to_send (message : Dict) (context : Dict) (unique_id : String) : Dict :=
  let msg := dictInsert message "_unique_id" (.str unique_id)
  context.foldl (fun m kv => dictInsert m ("_context_" ++ kv.1) kv.2) msg

/-- Publish properties built by `_do_send` (lines 477-482): content headers
plus the driver version header (no expiration property at this point). -/
def sendProperties (content_type content_encoding : String) : PikaProperties :=
  { headers := some [("version", driverVERSION)]
    content_type := some content_type
    content_encoding := some content_encoding
    expiration := none }

/-- Heap of Python dict objects, for stating frame properties about
mutation: addresses below `next` are allocated. -/
structure Store where
  mem : Nat → Dict
  next : Nat

/-- Read the dict at an address. -/
def Store.read (σ : Store) (a : Nat) : Dict := σ.mem a

/-- Overwrite the dict at an address. -/
def Store.write (σ : Store) (a : Nat) (d : Dict) : Store :=
  ⟨Function.update σ.mem a d, σ.next⟩

/-- Allocate a fresh dict object holding `d` (models `dict.copy()` when `d`
is read from another address). -/
def Store.alloc (σ : Store) (d : Dict) : Store × Nat :=
  (⟨Function.update σ.mem σ.next d, σ.next + 1⟩, σ.next)

/-- Embedding of `_prepare_message_to_send` at the level of dict objects:
`msg = self.message.copy()` allocates a fresh dict, and all subsequent
mutation (`msg['_unique_id'] = ...`, `msg['_context_' + key] = value`) hits
only that fresh address.  Returns the final store and the address of the
prepared wire body. -/
def prepareStore (σ : Store) (msgAddr ctxAddr : Nat) (uid : String) : Store × Nat :=
  let p := σ.alloc (σ.read msgAddr)
  let σ1 := p.1
  let a := p.2
  let σ2 := σ1.write a (dictInsert (σ1.read a) "_unique_id" (.str uid))
  let σ3 := (σ2.read ctxAddr).foldl
    (fun τ kv => τ.write a (dictInsert (τ.read a) ("_context_" ++ kv.1) kv.2)) σ2
  (σ3, a)

/-- Low-level failures of the pika client and the connection pool, as matched
by the `except` clauses of `_publish` (lines 417-457).  `channelClosed code`
is the connectivity error `pika_exceptions.ChannelClosed` with reply code
`code`; `otherConnectivity` is any other member of
`pika_pool.Connection.connectivity_errors`. -/
inductive LowLevelErr where
  | nackError
  | unroutableError
  | poolTimeout
  | channelClosed (code : Int)
  | otherConnectivity
  | socketTimeout
deriving DecidableEq

/-- Broker interactions performed by one `_publish` attempt. -/
inductive PubAction where
  | acquireConn (timeout : Option Rat)
  | brokerPublish (exchange routing_key : String) (expirationMs : Option String) (mandatory : Bool)
deriving DecidableEq

/-- Exception mapping of the `except` clauses of `_publish` (lines 417-457). -/
def mapLowLevelErr : LowLevelErr → OsloErr
  | .nackError => .messageRejected
  | .unroutableError => .routingError
  | .poolTimeout => .messagingTimeout
  | .channelClosed code => if code == 404 then .exchangeNotFound else .connectionError
  | .otherConnectivity => .connectionError
  | .socketTimeout => .timeoutConnectionError

/-- Embedding of `PikaOutgoingMessage._publish` (lines 383-457).  `now`
models `time.time()` at the checkpoint; `acquireOutcome` and
`publishOutcome` are oracles for the pooled acquisition and the broker
publish call.  Returns the list of broker interactions actually performed
together with the result; the wire expiration property is
`str(int(timeout * 1000))` when the timeout is bounded. -/
def publishAttempt (now : Rat) (expiration_time : Option Rat) (exchange routing_key : String)
    (mandatory : Bool) (acquireOutcome : Except LowLevelErr Unit)
    (publishOutcome : Except LowLevelErr Unit) : List PubAction × Except OsloErr Unit :=
  match expiration_time with
  | some e =>
    let timeout := e - now
    if timeout < 0 then ([], .error .messagingTimeout)
    else
      let header := some (toString ⌊timeout * 1000⌋)
      match acquireOutcome with
      | .error err => ([.acquireConn (some timeout)], .error (mapLowLevelErr err))
      | .ok _ =>
        match publishOutcome with
        | .error err =>
          ([.acquireConn (some timeout), .brokerPublish exchange routing_key header mandatory],
           .error (mapLowLevelErr err))
        | .ok _ =>
          ([.acquireConn (some timeout), .brokerPublish exchange routing_key header mandatory],
           .ok ())
  | none =>
    match acquireOutcome with
    | .error err => ([.acquireConn none], .error (mapLowLevelErr err))
    | .ok _ =>
      match publishOutcome with
      | .error err =>
        ([.acquireConn none, .brokerPublish exchange routing_key none mandatory],
         .error (mapLowLevelErr err))
      | .ok _ =>
        ([.acquireConn none, .brokerPublish exchange routing_key none mandatory], .ok ())

/-- Modelled from the spec: the driver exception-class hierarchy
(`pika_driver/pika_exceptions.py`) is code of this repository not under
src/.  The spec presents the error kinds as a closed set of distinct kinds
(section 4.7, section 6), with `ConnectionException` being the
`ConnectionFailure` kind; `isinstance(ex, ConnectionException)` therefore
holds exactly for that kind. -/
def isConnectionExceptionInstance : OsloErr → Bool
  | .connectionError => true
  | _ => false

/-- Embedding of the `on_exception` retry predicate defined inside
`RpcPikaIncomingMessage.reply` (lines 227-232): retry exactly when the error
is a `ConnectionException` (logging a warning in that case). -/
def on_exception (ex : OsloErr) : Bool := isConnectionExceptionInstance ex

/-- Python truthiness of an optional string (`None` and the empty string are
falsy), for the `if not (self.msg_id and self.reply_q)` guard. -/
def pyTruthy : Option String → Bool
  | none => false
  | some s => !s.isEmpty

/-- Observable outcome of one `reply()` invocation. -/
inductive ReplyEffect where
  | noReply
  | replied
  | sendFailedLogged (e : OsloErr)
deriving DecidableEq

/-- Embedding of `RpcPikaIncomingMessage.reply` (lines 180-263), focused on
its control flow: early return when `msg_id`/`reply_q` are falsy, otherwise
send the reply body (the send outcome, retries already applied, enters as the
oracle `sendOutcome`) inside `try ... except Exception: LOG.exception`.
The construction of the reply body and the retrier configuration do not
affect whether an exception escapes and are elided. -/
def rpcReply (msg_id reply_q : Option String) (sendOutcome : Except OsloErr Unit) :
    Except OsloErr ReplyEffect :=
  if !(pyTruthy msg_id && pyTruthy reply_q) then .ok .noReply
  else
    match sendOutcome with
    | .ok _ => .ok .replied
    | .error e => .ok (.sendFailedLogged e)

/-- Check that a fallible computation did not raise. -/
def exceptOk {ε α : Type} : Except ε α → Bool
  | .ok _ => true
  | .error _ => false

/-- Modelled from the spec: the reply listener (`RpcReplyPikaListener`) is
code of this repository not under src/.  Its registry maps message ids to
pending-result slots; `register_reply_waiter(msgId)` adds the entry for the
given id and `unregister_reply_waiter(msgId)` removes the entry for the
given id (section 6).  Keys are Python values: `None` is modelled as
`Option.none`, a string id as `some id`. -/
def registerReplyWaiter (registry : List (Option String)) (id : Option String) :
    List (Option String) := registry ++ [id]

/-- Modelled from the spec: removal of the registry entry for the given id
(no-op when absent). -/
def unregisterReplyWaiter (registry : List (Option String)) (id : Option String) :
    List (Option String) := registry.filter (fun k => k ≠ id)

/-- Outcome of blocking on `future.result(...)`: the slot resolved with a
value, the wait raised `futures.TimeoutError`, or it raised some other
exception. -/
inductive WaitOutcome where
  | success (v : PyVal)
  | timeoutError
  | raisedErr (e : OsloErr)
deriving DecidableEq

/-- Embedding of the reply-expecting branch of `RpcPikaOutgoingMessage.send`
(lines 559-582).  `registry` is the listener's waiter registry;
`selfMsgIdField` is the object's `self.msg_id` attribute, which `__init__`
sets to `None` (line 533) and which `send` never reassigns — only the local
variable `msg_id` holds the generated id, registered under `some genMsgId`.
`sendOutcome` is the `_do_send` result (raised outside the `try`, so no
unregistration happens on a send failure); on any exception from the wait the
code runs `unregister_reply_waiter(self.msg_id)` and re-raises, turning
`futures.TimeoutError` into `MessagingTimeout`. -/
def rpcSendWithReply (registry : List (Option String)) (selfMsgIdField : Option String)
    (genMsgId : String) (sendOutcome : Except OsloErr Unit) (waitOutcome : WaitOutcome) :
    List (Option String) × Except OsloErr PyVal :=
  let registry1 := registerReplyWaiter registry (some genMsgId)
  match sendOutcome with
  | .error e => (registry1, .error e)
  | .ok _ =>
    match waitOutcome with
    | .success v => (registry1, .ok v)
    | .timeoutError =>
      (unregisterReplyWaiter registry1 selfMsgIdField, .error .messagingTimeout)
    | .raisedErr e =>
      (unregisterReplyWaiter registry1 selfMsgIdField, .error e)

/-- Entry point as reached from a fresh `RpcPikaOutgoingMessage`: `__init__`
leaves `self.msg_id = None`. -/
def rpcSendFresh (registry : List (Option String)) (genMsgId : String)
    (sendOutcome : Except OsloErr Unit) (waitOutcome : WaitOutcome) :
    List (Option String) × Except OsloErr PyVal :=
  rpcSendWithReply registry none genMsgId sendOutcome waitOutcome

/-! Theorems -/

/-- C1 (code-bug evidence): for an RPC send with a reply listener whose wait
times out, the wait-timeout is re-raised as `MessagingTimeout`, but the
waiter entry for the generated message id `"abc"` is still registered
afterwards: the code unregisters `self.msg_id`, which is still `None`, not
the generated id, so the claim's cleanup clause fails on the code. -/
theorem c1_stale_msg_id_leaves_waiter_registered :
    rpcSendFresh [] "abc" (.ok ()) .timeoutError
      = ([some "abc"], .error .messagingTimeout) := by
  rfl

/-- C2 (code-bug evidence): a reply failure record naming an allow-listed
and importable module whose class name is absent raises `AttributeError` out
of the reply path (the source catches only `ImportError`), instead of
degrading to the generic remote-error as the claim states. -/
theorem c2_missing_class_raises_attribute_error :
    processReplyFailure ["mymod"] (fun m => if m == "mymod" then some ["Known"] else none)
      ⟨["line1"], "boom", some "Missing", some "mymod"⟩
      = .error .attributeError := by
  rfl

/-- C3 counterexample: two failure records differing only in the (non
allow-listed) origin module name produce identical generic remote-error
objects, so the produced object cannot carry the origin module name; the
claim's "same four raw fields" is false on the code, which passes only
class, message and trace to `RemoteError`. -/
theorem c3_module_name_not_carried :
    processReplyFailure [] (fun _ => none) ⟨["t"], "m", some "C", some "modA"⟩
      = processReplyFailure [] (fun _ => none) ⟨["t"], "m", some "C", some "modB"⟩
    ∧ "modA" ≠ "modB" := by
  exact ⟨rfl, by decide⟩

/-- C3 (amended): for every decoded reply whose failure record names a module
that is not in the allow-list, or that is allow-listed but fails to import,
the produced failure object is the generic remote-error carrying the origin
class name, the message text and the trace lines — but not the origin module
name. -/
theorem c3_generic_remote_error_fields (allowed : List String)
    (env : String → Option (List String)) (tb : List String) (message : String)
    (cls : Option String) (m : String) (h : m ∉ allowed ∨ env m = none) :
    processReplyFailure allowed env ⟨tb, message, cls, some m⟩
      = .ok (.remoteError cls message tb) := by
  by_cases hm : m ∈ allowed
  · rcases h with h | h
    · exact absurd hm h
    · simp [processReplyFailure, hm, h]
  · simp [processReplyFailure, hm]

/-- C3 witness: the amended theorem applied at a concrete non-allow-listed
module. -/
theorem c3_generic_remote_error_fields_witness :
    processReplyFailure [] (fun _ => none) ⟨["t1", "t2"], "msg", some "C", some "other.mod"⟩
      = .ok (.remoteError (some "C") "msg" ["t1", "t2"]) :=
  c3_generic_remote_error_fields [] (fun _ => none) ["t1", "t2"] "msg" (some "C")
    "other.mod" (Or.inl (by decide))

/-- C4 counterexample: at a remaining budget of exactly zero the publish does
not fail with a timeout and pool acquisition does occur — the source checks
`timeout < 0`, not `timeout <= 0` — so the claim's "less than or equal to
zero" is false on the code at budget zero. -/
theorem c4_zero_budget_acquires :
    publishAttempt 5 (some 5) "ex" "rk" true (.ok ()) (.ok ())
      = ([.acquireConn (some 0), .brokerPublish "ex" "rk" (some "0") true], .ok ()) := by
  have h0 : (5 : Rat) - 5 = 0 := by norm_num
  simp [publishAttempt, h0, Int.floor_zero]
  rfl

/-- C4 (amended): for every publish attempt with a set expiration time whose
remaining budget is strictly negative at the publish checkpoint, the
operation fails with `MessagingTimeout` and performs no pool acquisition and
no broker call; at a budget of exactly zero the publish proceeds (acquiring
with timeout 0). -/
theorem c4_negative_budget_fails_fast (now e : Rat) (exchange rk : String)
    (mandatory : Bool) (acq pub : Except LowLevelErr Unit) (h : e - now < 0) :
    publishAttempt now (some e) exchange rk mandatory acq pub
      = ([], .error .messagingTimeout) := by
  simp [publishAttempt, h]

/-- C4 witness: the amended theorem applied at an already-expired deadline. -/
theorem c4_negative_budget_fails_fast_witness :
    publishAttempt 5 (some 3) "ex" "rk" true (.ok ()) (.ok ())
      = ([], .error .messagingTimeout) :=
  c4_negative_budget_fails_fast 5 3 "ex" "rk" true (.ok ()) (.ok ()) (by norm_num)

/-- C7: the default retry predicate used when sending a reply back retries
exactly the `ConnectionException` (ConnectionFailure) kind; every other kind,
including timeouts and rejections, is not retried. -/
theorem c7_default_reply_retry_predicate (ex : OsloErr) :
    on_exception ex = true ↔ ex = .connectionError := by
  cases ex <;> simp [on_exception, isConnectionExceptionInstance]

/-- C7 witness: the predicate evaluated through the theorem at the
connection-failure kind, plus direct evaluations at a timeout and a
rejection. -/
theorem c7_default_reply_retry_predicate_witness :
    on_exception .connectionError = true ∧ on_exception .messagingTimeout = false ∧
    on_exception .messageRejected = false :=
  ⟨(c7_default_reply_retry_predicate .connectionError).mpr rfl, by decide, by decide⟩

/-- C8: any exception from sending the reply back (after retries) is caught
by the `try ... except Exception` of `reply()` and logged; `reply()` itself
never raises, for every send outcome. -/
theorem c8_reply_send_failure_not_reraised (msg_id reply_q : Option String)
    (sendOutcome : Except OsloErr Unit) :
    exceptOk (rpcReply msg_id reply_q sendOutcome) = true := by
  unfold rpcReply
  split
  · rfl
  · cases sendOutcome <;> rfl

/-- C9: in no-acknowledgment mode, `acknowledge()` and `requeue()` issue no
channel operation at all, and the delivery handle stays `pending`. -/
theorem c9_no_ack_mode_is_noop (m : ParsedMessage) (h : m.no_ack = true) :
    acknowledge m = [] ∧ requeue m = [] ∧
    applyOps .pending (acknowledge m) = .pending ∧
    applyOps .pending (requeue m) = .pending := by
  simp [acknowledge, requeue, h, applyOps]

/-- C9 witness: the theorem applied to a concrete no-ack message. -/
theorem c9_no_ack_mode_is_noop_witness :
    acknowledge ⟨some "1.0", "application/json", "utf-8", none, true, 7, [], [], []⟩ = [] ∧
    requeue ⟨some "1.0", "application/json", "utf-8", none, true, 7, [], [], []⟩ = [] ∧
    applyOps .pending
      (acknowledge ⟨some "1.0", "application/json", "utf-8", none, true, 7, [], [], []⟩)
      = .pending ∧
    applyOps .pending
      (requeue ⟨some "1.0", "application/json", "utf-8", none, true, 7, [], [], []⟩)
      = .pending :=
  c9_no_ack_mode_is_noop ⟨some "1.0", "application/json", "utf-8", none, true, 7, [], [], []⟩ rfl

/-! Helper lemmas about the string model and dict operations. -/

/-- Every char list leads a list it is appended in front of. -/
theorem charsLeadWith_append (p r : List Char) : charsLeadWith p (p ++ r) = true := by
  induction p with
  | nil => rfl
  | cons x xs ih => simp [charsLeadWith, ih]

/-- Transitivity of the prefix test. -/
theorem charsLeadWith_trans {a : List Char} : ∀ {b c : List Char},
    charsLeadWith a b = true → charsLeadWith b c = true → charsLeadWith a c = true := by
  induction a with
  | nil => intro b c _ _; rfl
  | cons x xs ih =>
    intro b c h1 h2
    cases b with
    | nil => simp [charsLeadWith] at h1
    | cons y ys =>
      cases c with
      | nil => simp [charsLeadWith] at h2
      | cons z zs =>
        simp only [charsLeadWith, Bool.and_eq_true, beq_iff_eq] at h1 h2 ⊢
        exact ⟨h1.1.trans h2.1, ih h1.2 h2.2⟩

/-- A concatenation starts with its first part. -/
theorem strStartsWith_append (p s : String) : strStartsWith (p ++ s) p = true := by
  unfold strStartsWith
  rw [show (p ++ s).data = p.data ++ s.data from rfl]
  exact charsLeadWith_append p.data s.data

/-- Everything carrying the context prefix also carries the underscore. -/
theorem strStartsWith_context_imp {k : String} (h : strStartsWith k "_context_" = true) :
    strStartsWith k "_" = true :=
  charsLeadWith_trans (by decide) h

/-- A context-prefixed key carries the underscore. -/
theorem strStartsWith_context_u (c : String) : strStartsWith ("_context_" ++ c) "_" = true :=
  strStartsWith_context_imp (strStartsWith_append "_context_" c)

/-- Stripping the 9-char context prefix recovers the original key. -/
theorem strDrop_context (k : String) : strDrop ("_context_" ++ k) 9 = k := by
  unfold strDrop
  rw [show ("_context_" ++ k).data = "_context_".data ++ k.data from rfl,
      show (9 : Nat) = "_context_".data.length from rfl, List.drop_left]

/-- Appending on the left of string concatenation is cancellable. -/
theorem string_append_cancel {p a b : String} (h : p ++ a = p ++ b) : a = b := by
  have hd := congrArg String.data h
  rw [show (p ++ a).data = p.data ++ a.data from rfl,
      show (p ++ b).data = p.data ++ b.data from rfl] at hd
  exact String.ext (List.append_cancel_left hd)

/-- Lookup misses when no key of the dict equals the searched key. -/
theorem lookup_eq_none_of_keys (d : Dict) (k : String) (h : ∀ kv ∈ d, kv.1 ≠ k) :
    d.lookup k = none := by
  induction d with
  | nil => rfl
  | cons kv rest ih =>
    obtain ⟨k', v'⟩ := kv
    have hne : (k == k') = false :=
      beq_eq_false_iff_ne.mpr (Ne.symm (h (k', v') (List.mem_cons_self _ _)))
    simp [List.lookup, hne]
    intro a b hm hk
    exact h (a, b) (List.mem_cons_of_mem _ hm) hk.symm

/-- Inserting a key absent from the dict appends the new binding. -/
theorem dictInsert_fresh (d : Dict) (k : String) (v : PyVal) (h : ∀ kv ∈ d, kv.1 ≠ k) :
    dictInsert d k v = d ++ [(k, v)] := by
  simp [dictInsert, lookup_eq_none_of_keys d k h]

/-- Folding context inserts over fresh keys appends the re-keyed entries. -/
theorem foldDictInsertCtx (context : Dict) : ∀ acc : Dict,
    (∀ kv ∈ context, ∀ kv2 ∈ acc, kv2.1 ≠ "_context_" ++ kv.1) →
    (context.map Prod.fst).Nodup →
    context.foldl (fun m kv => dictInsert m ("_context_" ++ kv.1) kv.2) acc
      = acc ++ context.map (fun kv => ("_context_" ++ kv.1, kv.2)) := by
  induction context with
  | nil => intro acc _ _; simp
  | cons kv rest ih =>
    intro acc Hfresh Hnodup
    obtain ⟨k, v⟩ := kv
    have hknot : k ∉ rest.map Prod.fst := by
      rw [List.map_cons] at Hnodup
      exact (List.nodup_cons.mp Hnodup).1
    have hnodup' : (rest.map Prod.fst).Nodup := by
      rw [List.map_cons] at Hnodup
      exact (List.nodup_cons.mp Hnodup).2
    have hfresh' : ∀ kv' ∈ rest, ∀ kv2 ∈ acc ++ [("_context_" ++ k, v)],
        kv2.1 ≠ "_context_" ++ kv'.1 := by
      intro kv' hm' kv2 h2
      rcases List.mem_append.mp h2 with h2 | h2
      · exact Hfresh kv' (List.mem_cons_of_mem _ hm') kv2 h2
      · rcases List.mem_singleton.mp h2 with rfl
        intro he
        have hk : k = kv'.1 := string_append_cancel he
        exact hknot (by rw [hk]; exact List.mem_map_of_mem Prod.fst hm')
    simp only [List.foldl_cons]
    rw [dictInsert_fresh acc ("_context_" ++ k) v
        (fun kv2 h2 => Hfresh (k, v) (List.mem_cons_self _ _) kv2 h2)]
    rw [ih (acc ++ [("_context_" ++ k, v)]) hfresh' hnodup']
    simp

/-- Prepared wire body, explicitly: the user message, then the unique id,
then the re-keyed context (valid when no user key is underscore-prefixed and
the context keys are distinct). -/
theorem prepareEqExplicit (message context : Dict) (uid : String)
    (Hmsg : ∀ kv ∈ message, strStartsWith kv.1 "_" = false)
    (Hctx : (context.map Prod.fst).Nodup) :
    prepare_message_to_send message context uid
      = (message ++ [("_unique_id", PyVal.str uid)])
        ++ context.map (fun kv => ("_context_" ++ kv.1, kv.2)) := by
  unfold prepare_message_to_send
  have h1 : ∀ kv ∈ message, kv.1 ≠ "_unique_id" := by
    intro kv hm he
    have hs := Hmsg kv hm
    rw [he] at hs
    exact absurd hs (by decide)
  rw [dictInsert_fresh message "_unique_id" (.str uid) h1]
  refine foldDictInsertCtx context (message ++ [("_unique_id", PyVal.str uid)]) ?_ Hctx
  intro kv hm kv2 h2
  rcases List.mem_append.mp h2 with h2 | h2
  · intro he
    have hs := Hmsg kv2 h2
    rw [he, strStartsWith_context_u] at hs
    exact Bool.noConfusion hs
  · rcases List.mem_singleton.mp h2 with rfl
    intro he
    have he' : "_unique_id" = "_context_" ++ kv.1 := he
    have hs : strStartsWith "_unique_id" "_context_" = true := by
      rw [he']
      exact strStartsWith_append "_context_" kv.1
    exact absurd hs (by decide)

/-- The partition loop distributes over list concatenation. -/
theorem partitionBody_append (l1 l2 : Dict) :
    partitionBody (l1 ++ l2)
      = ((partitionBody l1).1 ++ (partitionBody l2).1,
         (partitionBody l1).2.1 ++ (partitionBody l2).2.1,
         (partitionBody l1).2.2 ++ (partitionBody l2).2.2) := by
  induction l1 with
  | nil => simp [partitionBody]
  | cons kv rest ih =>
    obtain ⟨k, v⟩ := kv
    by_cases h1 : strStartsWith k "_context_" = true
    · simp [partitionBody, h1, ih]
    · by_cases h2 : strStartsWith k "_" = true
      · simp [partitionBody, h1, h2, ih]
      · simp [partitionBody, h1, h2, ih]

/-- A dict with no underscore-prefixed key partitions entirely into the
payload. -/
theorem partitionBody_plain (l : Dict) (H : ∀ kv ∈ l, strStartsWith kv.1 "_" = false) :
    partitionBody l = (l, [], []) := by
  induction l with
  | nil => rfl
  | cons kv rest ih =>
    obtain ⟨k, v⟩ := kv
    have hk : strStartsWith k "_" = false := H (k, v) (List.mem_cons_self _ _)
    have hc : strStartsWith k "_context_" = false := by
      cases hval : strStartsWith k "_context_" with
      | false => rfl
      | true => rw [strStartsWith_context_imp hval] at hk; exact Bool.noConfusion hk
    simp [partitionBody, hc, hk, ih (fun kv hm => H kv (List.mem_cons_of_mem _ hm))]

/-- Re-keyed context entries partition entirely into the context mapping,
with the prefix stripped back off. -/
theorem partitionBody_ctx (context : Dict) :
    partitionBody (context.map (fun kv => ("_context_" ++ kv.1, kv.2))) = ([], context, []) := by
  induction context with
  | nil => rfl
  | cons kv rest ih =>
    obtain ⟨k, v⟩ := kv
    simp [partitionBody, ih, strStartsWith_append, strDrop_context]

/-- The unique-id entry partitions into the system fields. -/
theorem partitionBody_uid (v : PyVal) :
    partitionBody [("_unique_id", v)] = ([], [], [("unique_id", v)]) := by
  simp [partitionBody, show strStartsWith "_unique_id" "_context_" = false from by decide,
        show strStartsWith "_unique_id" "_" = true from by decide,
        show strDrop "_unique_id" 1 = "unique_id" from rfl]

/-- The partition loop, characterised as filters over the input keys. -/
theorem partitionBody_filters (l : Dict) :
    partitionBody l
      = (l.filter (fun kv => !(strStartsWith kv.1 "_")),
         l.filterMap (fun kv =>
           if strStartsWith kv.1 "_context_" then some (strDrop kv.1 9, kv.2) else none),
         l.filterMap (fun kv =>
           if strStartsWith kv.1 "_context_" then none
           else if strStartsWith kv.1 "_" then some (strDrop kv.1 1, kv.2) else none)) := by
  induction l with
  | nil => rfl
  | cons kv rest ih =>
    obtain ⟨k, v⟩ := kv
    by_cases h1 : strStartsWith k "_context_" = true
    · have h2 := strStartsWith_context_imp h1
      simp [partitionBody, List.filter_cons, List.filterMap_cons, h1, h2, ih]
    · by_cases h2 : strStartsWith k "_" = true
      · simp [partitionBody, List.filter_cons, List.filterMap_cons, h1, h2, ih]
      · simp [partitionBody, List.filter_cons, List.filterMap_cons, h1, h2, ih]

/-- Decoding a body published with the properties `_do_send` builds succeeds
and partitions the body. -/
theorem decode_of_send_props (now : Rat) (method : DeliveryMethod) (na : Bool) (kvs : Dict) :
    pikaIncomingInit now (sendProperties "application/json" "utf-8") method (some kvs) na
      = .ok ⟨some driverVERSION, "application/json", "utf-8", none, na, method.delivery_tag,
             (partitionBody kvs).1, (partitionBody kvs).2.1, (partitionBody kvs).2.2⟩ := by
  have hv : version_is_compatible (some driverVERSION) driverVERSION = true := by
    simp [version_is_compatible]
  unfold pikaIncomingInit sendProperties
  simp [List.lookup, hv]

/-- C5: decoding an inbound envelope checks version compatibility first
(failing with the `UnsupportedVersion` kind before any field extraction, for
every content type and body), then the content type (failing with the
`UnsupportedContentType` kind before the body is parsed, even for an
unparseable body), and only then parses the body and partitions its keys:
context-prefixed keys go to the context mapping with the prefix stripped,
other underscore-prefixed keys become system fields on the message object,
and the remaining keys form the payload. -/
theorem c5_decode_checks_order_then_partitions (now : Rat) (props : PikaProperties)
    (method : DeliveryMethod) (body : Option Dict) (na : Bool) :
    (version_is_compatible (headersVersionOf props) driverVERSION = false →
      pikaIncomingInit now props method body na = .error .unsupportedDriverVersion)
    ∧ (version_is_compatible (headersVersionOf props) driverVERSION = true →
        effContentType props ≠ "application/json" →
        pikaIncomingInit now props method body na = .error .contentTypeNotImplemented)
    ∧ (∀ kvs, version_is_compatible (headersVersionOf props) driverVERSION = true →
        effContentType props = "application/json" → body = some kvs →
        pikaIncomingInit now props method body na
          = .ok ⟨headersVersionOf props, "application/json",
                 props.content_encoding.getD "utf-8",
                 props.expiration.map (fun e => now + (e : Rat) / 1000), na,
                 method.delivery_tag,
                 kvs.filter (fun kv => !(strStartsWith kv.1 "_")),
                 kvs.filterMap (fun kv =>
                   if strStartsWith kv.1 "_context_" then some (strDrop kv.1 9, kv.2)
                   else none),
                 kvs.filterMap (fun kv =>
                   if strStartsWith kv.1 "_context_" then none
                   else if strStartsWith kv.1 "_" then some (strDrop kv.1 1, kv.2)
                   else none)⟩) := by
  refine ⟨?_, ?_, ?_⟩
  · intro h
    have h' : version_is_compatible ((props.headers.getD []).lookup "version")
        driverVERSION = false := h
    simp [pikaIncomingInit, h']
  · intro h hct
    have h' : version_is_compatible ((props.headers.getD []).lookup "version")
        driverVERSION = true := h
    have hct' : props.content_type.getD "application/json" ≠ "application/json" := hct
    simp [pikaIncomingInit, h', hct']
  · intro kvs h hct hb
    have h' : version_is_compatible ((props.headers.getD []).lookup "version")
        driverVERSION = true := h
    have hct' : props.content_type.getD "application/json" = "application/json" := hct
    subst hb
    simp [pikaIncomingInit, h', hct', partitionBody_filters, headersVersionOf]

/-- C5 witness: the theorem applied to an envelope with no version header, an
envelope with a wrong content type over an unparseable body, and a
well-formed envelope whose body mixes a context key, a system key and a
payload key. -/
theorem c5_decode_checks_order_then_partitions_witness :
    pikaIncomingInit 0 ⟨some [], some "application/json", none, none⟩ ⟨1⟩ none false
      = .error .unsupportedDriverVersion
    ∧ pikaIncomingInit 0 ⟨some [("version", "1.0")], some "text/plain", none, none⟩ ⟨1⟩
        none false
      = .error .contentTypeNotImplemented
    ∧ pikaIncomingInit 0 ⟨some [("version", "1.0")], some "application/json", none, none⟩ ⟨1⟩
        (some [("_context_user", PyVal.str "u1"), ("_msg_id", PyVal.str "id1"),
               ("a", PyVal.int 1)]) false
      = .ok ⟨some "1.0", "application/json", "utf-8", none, false, 1,
             [("a", PyVal.int 1)], [("user", PyVal.str "u1")],
             [("msg_id", PyVal.str "id1")]⟩ := by
  refine ⟨?_, ?_, ?_⟩
  · exact (c5_decode_checks_order_then_partitions 0
      ⟨some [], some "application/json", none, none⟩ ⟨1⟩ none false).1 (by rfl)
  · exact (c5_decode_checks_order_then_partitions 0
      ⟨some [("version", "1.0")], some "text/plain", none, none⟩ ⟨1⟩ none false).2.1
      (by rfl) (by decide)
  · exact (c5_decode_checks_order_then_partitions 0
      ⟨some [("version", "1.0")], some "application/json", none, none⟩ ⟨1⟩
      (some [("_context_user", PyVal.str "u1"), ("_msg_id", PyVal.str "id1"),
             ("a", PyVal.int 1)]) false).2.2
      [("_context_user", PyVal.str "u1"), ("_msg_id", PyVal.str "id1"),
       ("a", PyVal.int 1)] (by rfl) (by rfl) rfl

/-- C6 counterexample: a payload whose key starts with an underscore is not
round-tripped — encoding `{"_a": 1}` with empty context and decoding the
result yields an empty payload (the key was misclassified as a system
field), refuting the claim as stated for arbitrary payload mappings. -/
theorem c6_underscore_key_breaks_round_trip :
    getPayload (pikaIncomingInit 0 (sendProperties "application/json" "utf-8") ⟨1⟩
      (some (prepare_message_to_send [("_a", PyVal.int 1)] [] "u")) false)
      = some [] ∧ ([] : Dict) ≠ [("_a", PyVal.int 1)] := by
  exact ⟨rfl, by decide⟩

/-- C6 (amended): for every payload mapping none of whose keys starts with an
underscore, and every context mapping (with the distinct keys a mapping has),
encoding via `_prepare_message_to_send` under the properties `_do_send`
builds and then decoding yields back exactly the same payload and the same
context with the context keys de-prefixed, regardless of key iteration
order; the unique id lands in the system fields. -/
theorem c6_encode_decode_round_trip (now : Rat) (method : DeliveryMethod) (na : Bool)
    (message context : Dict) (uid : String)
    (Hmsg : ∀ kv ∈ message, strStartsWith kv.1 "_" = false)
    (Hctx : (context.map Prod.fst).Nodup) :
    pikaIncomingInit now (sendProperties "application/json" "utf-8") method
      (some (prepare_message_to_send message context uid)) na
      = .ok ⟨some driverVERSION, "application/json", "utf-8", none, na,
             method.delivery_tag, message, context,
             [("unique_id", PyVal.str uid)]⟩ := by
  rw [prepareEqExplicit message context uid Hmsg Hctx, decode_of_send_props]
  rw [partitionBody_append, partitionBody_append, partitionBody_plain message Hmsg,
      partitionBody_uid, partitionBody_ctx]
  simp

/-- C6 witness: the amended theorem applied to the spec's end-to-end example
payload and context. -/
theorem c6_encode_decode_round_trip_witness :
    pikaIncomingInit 0 (sendProperties "application/json" "utf-8") ⟨1⟩
      (some (prepare_message_to_send [("a", PyVal.int 1)] [("user", PyVal.str "u1")] "uid1"))
      false
      = .ok ⟨some driverVERSION, "application/json", "utf-8", none, false, 1,
             [("a", PyVal.int 1)], [("user", PyVal.str "u1")],
             [("unique_id", PyVal.str "uid1")]⟩ :=
  c6_encode_decode_round_trip 0 ⟨1⟩ false [("a", PyVal.int 1)] [("user", PyVal.str "u1")]
    "uid1" (by decide) (by decide)

/-- Writing one address leaves every other address unchanged. -/
theorem store_read_write_ne (σ : Store) (a b : Nat) (d : Dict) (h : b ≠ a) :
    (σ.write a d).read b = σ.read b := by
  simp [Store.write, Store.read, Function.update_noteq h]

/-- The context-insert loop only ever writes the prepared copy's address. -/
theorem foldWritesPreserve (l : Dict) (a b : Nat) (h : b ≠ a) : ∀ τ : Store,
    (l.foldl (fun τ kv => τ.write a (dictInsert (τ.read a) ("_context_" ++ kv.1) kv.2))
        τ).read b
      = τ.read b := by
  induction l with
  | nil => intro τ; rfl
  | cons kv rest ih =>
    intro τ
    simp only [List.foldl_cons]
    rw [ih]
    exact store_read_write_ne τ a b _ h

/-- C10: preparing the wire body operates on a fresh copy — after
`_prepare_message_to_send`, the caller's original message dict and context
dict are unchanged (the unique id and the prefixed context keys were added
only to the copy). -/
theorem c10_prepare_leaves_caller_dicts_unchanged (σ : Store) (msgAddr ctxAddr : Nat)
    (uid : String) (h1 : msgAddr < σ.next) (h2 : ctxAddr < σ.next) :
    ((prepareStore σ msgAddr ctxAddr uid).1).read msgAddr = σ.read msgAddr ∧
    ((prepareStore σ msgAddr ctxAddr uid).1).read ctxAddr = σ.read ctxAddr := by
  have hm : msgAddr ≠ σ.next := Nat.ne_of_lt h1
  have hc : ctxAddr ≠ σ.next := Nat.ne_of_lt h2
  constructor
  · simp only [prepareStore, Store.alloc]
    rw [foldWritesPreserve _ _ _ hm, store_read_write_ne _ _ _ _ hm]
    simp [Store.read, Function.update_noteq hm]
  · simp only [prepareStore, Store.alloc]
    rw [foldWritesPreserve _ _ _ hc, store_read_write_ne _ _ _ _ hc]
    simp [Store.read, Function.update_noteq hc]

/-- C10 witness: the theorem applied to a two-object store. -/
theorem c10_prepare_leaves_caller_dicts_unchanged_witness :
    ((prepareStore ⟨fun _ => [], 2⟩ 0 1 "u").1).read 0 = Store.read ⟨fun _ => [], 2⟩ 0 ∧
    ((prepareStore ⟨fun _ => [], 2⟩ 0 1 "u").1).read 1 = Store.read ⟨fun _ => [], 2⟩ 1 :=
  c10_prepare_leaves_caller_dicts_unchanged ⟨fun _ => [], 2⟩ 0 1 "u" (by decide) (by decide)
